import Mathlib

/-!
Verification of the source-extraction and flux-calibration steps of the
image-reduction pipeline.

The development shallowly embeds the two pipeline steps:

* `SrcExt` embeds `StepSrcExtPy.run` (stepsrcextpy.py): the orchestration of
  the external SEP capabilities (`extract`, `kron_radius`, `sum_ellipse`,
  `flux_radius`), the flux-descending sort (numpy `argsort` ascending followed
  by a reversing `take_along_axis`, modelled as a stable ascending insertion
  sort followed by `List.reverse`), the star-acceptance filter, the summary
  statistics, the result tables, and the output data object.

* `Fluxcal` embeds `StepFluxCalSex.run` (stepfluxcalsex.py): the SExtractor
  star selection, the Guide Star Catalog magnitude filter, nearest-neighbour
  cross-matching, the one-pixel distance cut, the weighted fitting objective
  (`residual` / `nll`), and the closed-form image rescale with `bzero` a
  percentile of the image and `bscale = 3631 * 10 ^ (b/2.5)`.

Numeric modelling: machine floats are embedded as exact rationals wherever the
step's own logic (comparisons, filters, sorts) consumes them; transcendental
primitives applied by numpy/astropy (`np.sqrt`, `np.log10`, angular
separation) are abstract function parameters, and the final image rescale,
whose formula genuinely involves a real power, is embedded over `ℝ`.
External collaborators (SEP, the catalog service, astropy matching, the
scipy optimizer) enter as explicit parameters; the embedded definitions are
the repository's own orchestration of them.  `NaN`-valued summary statistics
are represented by `none : Option ℚ`.
-/

namespace SrcExt

/-- One SEP source record, with the fields of the `sep.extract` output that
`StepSrcExtPy.run` reads: centroid, ellipse shape, bounding box and isophotal
flux. -/
structure SepSource where
  x : ℚ
  y : ℚ
  a : ℚ
  b : ℚ
  theta : ℚ
  xmin : ℚ
  xmax : ℚ
  ymin : ℚ
  ymax : ℚ
  flux : ℚ
deriving DecidableEq

/-- The external SEP capabilities used by `StepSrcExtPy.run`, specialised to
one run (the background-subtracted image and the RMS map are captured in the
closures).  `extract` takes the extraction threshold and the
`deblend_nthresh` argument; `kron_radius` takes the integration radius `r`;
`sum_ellipse` takes the integration radius and the `subpix` argument (the
RMS-map error input is part of the closure); `flux_radius` takes `rmax` and
the flux fraction.  `npsqrt` is the numeric square root (`np.sqrt`) used to
build `rmax` from the bounding-box diagonal. -/
structure SepLib where
  extract : ℚ → ℕ → List SepSource
  kron_radius : SepSource → ℚ → ℚ × Bool
  sum_ellipse : SepSource → ℚ → ℕ → ℚ × ℚ × Bool
  flux_radius : SepSource → ℚ → ℚ → ℚ × Bool
  npsqrt : ℚ → ℚ

/-- The configuration parameters of `StepSrcExtPy` that the embedded part of
`run` consumes, with the spelling of the step's parameter list
(`extractthersh` sic). -/
structure SrcExtConfig where
  extractthersh : ℚ
  bfactor : ℚ
  deblend : ℕ
  kronf : ℚ

/-- A source together with its derived measurements: elliptical flux, its
uncertainty and the half-flux radius (`flux_elip`, `fluxerr_elip`, `rh` in
`run`). -/
structure MeasuredRow where
  src : SepSource
  flux_elip : ℚ
  fluxerr_elip : ℚ
  rh : ℚ
deriving DecidableEq

/-- One row of an output source table (`fits.Column` data of `run`): the
1-based sequential ID, centroid, uncalibrated flux and uncertainty, and
half-light radius. -/
structure TableRow where
  id : ℕ
  x : ℚ
  y : ℚ
  flux : ℚ
  fluxerr : ℚ
  rh : ℚ
deriving DecidableEq

/-- Stable ascending insertion by key: the new element goes after every
element with an equal or smaller key. -/
def insertAsc (key : α → ℚ) (v : α) : List α → List α
  | [] => [v]
  | w :: t => if key v < key w then v :: w :: t else w :: insertAsc key v t

/-- Stable ascending sort by key. -/
def sortAscBy (key : α → ℚ) : List α → List α
  | [] => []
  | v :: t => insertAsc key v (sortAscBy key t)

/-- The sort used throughout `StepSrcExtPy.run`: `np.argsort` on the key
(ascending) followed by `np.take_along_axis` with the reversed index array,
i.e. an ascending sort followed by a reversal. -/
def npSortDescBy (key : α → ℚ) (l : List α) : List α :=
  (sortAscBy key l).reverse

/-- The per-source measurements of `run` (lines 163-193): Kron radius with
`r = 6.0`, elliptical flux at radius `kronf * kronrad` with `subpix = 1` and
the RMS map as error input, and half-flux radius with
`rmax = sqrt(dx^2 + dy^2)` from the bounding box and `frac = 0.5`. -/
def measureSource (lib : SepLib) (cfg : SrcExtConfig) (s : SepSource) : MeasuredRow :=
  let kronrad := (lib.kron_radius s 6).1
  let fe := lib.sum_ellipse s (cfg.kronf * kronrad) 1
  let dx := (s.xmax - s.xmin) / 2
  let dy := (s.ymax - s.ymin) / 2
  let rmax := lib.npsqrt (dx * dx + dy * dy)
  let rhp := lib.flux_radius s rmax (1 / 2)
  { src := s, flux_elip := fe.1, fluxerr_elip := fe.2.1, rh := rhp.1 }

/-- The elongation limit `elim = 1.5` of `run`. -/
def elim : ℚ := 3 / 2

/-- The acceptance filter of `run` (lines 219-228): elongation `a/b < elim`,
signal-to-noise `flux/fluxerr < 1000`, `fluxerr != 0` and `flux != 0`. -/
def starCut (r : MeasuredRow) : Bool :=
  decide (r.src.a / r.src.b < elim) && decide (r.flux_elip / r.fluxerr_elip < 1000)
    && decide (r.fluxerr_elip ≠ 0) && decide (r.flux_elip ≠ 0)

/-- The low-threshold processing path of `run`, transcribed in code order:
extract at `extractthersh` with the configured `deblend` sensitivity, pre-sort
by isophotal flux descending, measure each source, re-sort by elliptical flux
descending, and apply the acceptance filter. -/
def lowPath (lib : SepLib) (cfg : SrcExtConfig) : List MeasuredRow :=
  let sources := lib.extract cfg.extractthersh cfg.deblend
  let objects := npSortDescBy SepSource.flux sources
  let rows := objects.map (measureSource lib cfg)
  let rowsSorted := npSortDescBy MeasuredRow.flux_elip rows
  rowsSorted.filter starCut

/-- The high-threshold processing path of `run`, transcribed in code order.
The extraction call `sep.extract(image_sub, extract_thresh*bright_factor,
err=extract_err)` omits the `deblend_nthresh` argument, so the library
default `32` applies instead of the configured `deblend` parameter. -/
def highPath (lib : SepLib) (cfg : SrcExtConfig) : List MeasuredRow :=
  let sourcesb := lib.extract (cfg.extractthersh * cfg.bfactor) 32
  let objectsb := npSortDescBy SepSource.flux sourcesb
  let rowsb := objectsb.map (measureSource lib cfg)
  let rowsSortedb := npSortDescBy MeasuredRow.flux_elip rowsb
  rowsSortedb.filter starCut

/-- The shared single-set pipeline, parametrized by the extraction threshold
and the deblending sensitivity: everything the two paths of `run` do to one
source set. -/
def pathAt (lib : SepLib) (cfg : SrcExtConfig) (thresh : ℚ) (deblendArg : ℕ) :
    List MeasuredRow :=
  let sources := lib.extract thresh deblendArg
  let objects := npSortDescBy SepSource.flux sources
  let rows := objects.map (measureSource lib cfg)
  let rowsSorted := npSortDescBy MeasuredRow.flux_elip rows
  rowsSorted.filter starCut

/-- Table assembly: 1-based sequential IDs (`np.arange(1, len+1)`) zipped with
the accepted rows. -/
def mkTableAux (n : ℕ) : List MeasuredRow → List TableRow
  | [] => []
  | r :: t =>
    { id := n, x := r.src.x, y := r.src.y, flux := r.flux_elip,
      fluxerr := r.fluxerr_elip, rh := r.rh } :: mkTableAux (n + 1) t

/-- The output table built from a list of accepted rows. -/
def mkTable (rows : List MeasuredRow) : List TableRow :=
  mkTableAux 1 rows

/-- The low-threshold result table of `run`. -/
def lowTable (lib : SepLib) (cfg : SrcExtConfig) : List TableRow :=
  mkTable (lowPath lib cfg)

/-- The high-threshold result table of `run`. -/
def highTable (lib : SepLib) (cfg : SrcExtConfig) : List TableRow :=
  mkTable (highPath lib cfg)

/-- `np.nanmean`: `none` (NaN) on an empty list, otherwise the mean. -/
def nanmean (l : List ℚ) : Option ℚ :=
  if l.isEmpty then none else some (l.sum / l.length)

/-- Median of a list of rationals (lower/upper middle averaged for even
length); `0` on the empty list, which is never consumed. -/
def medianQ (l : List ℚ) : ℚ :=
  let s := sortAscBy id l
  let n := l.length
  if n = 0 then 0
  else if n % 2 = 1 then s.getD (n / 2) 0
  else (s.getD (n / 2 - 1) 0 + s.getD (n / 2) 0) / 2

/-- The scale constant of `astropy.stats.mad_std`
(`1 / norm.ppf(0.75)`), embedded as a rational approximation. -/
def madStdConst : ℚ := 1.4826022185056018

/-- `astropy.stats.mad_std` with `ignore_nan=True`: `none` (NaN) on an empty
list, otherwise the scaled median absolute deviation. -/
def mad_std (l : List ℚ) : Option ℚ :=
  if l.isEmpty then none
  else
    let m := medianQ l
    some (madStdConst * medianQ (l.map (fun v => |v - m|)))

/-- Mean half-flux radius over the accepted low-threshold rows (`rhmean`). -/
def rhMean (lib : SepLib) (cfg : SrcExtConfig) : Option ℚ :=
  nanmean ((lowPath lib cfg).map MeasuredRow.rh)

/-- Robust standard deviation of the half-flux radius over the accepted
low-threshold rows (`rhstd`). -/
def rhStd (lib : SepLib) (cfg : SrcExtConfig) : Option ℚ :=
  mad_std ((lowPath lib cfg).map MeasuredRow.rh)

/-- Mean elongation over the accepted low-threshold rows (`elmean`). -/
def elongMean (lib : SepLib) (cfg : SrcExtConfig) : Option ℚ :=
  nanmean ((lowPath lib cfg).map (fun r => r.src.a / r.src.b))

/-- Key-value update for a header/table collection: the new pair replaces any
pair with the same key. -/
def headset {β : Type} (k : String) (v : β) (hs : List (String × β)) :
    List (String × β) :=
  (k, v) :: hs.filter (fun p => p.1 != k)

/-- Key lookup in a header/table collection. -/
def headget {β : Type} (k : String) : List (String × β) → Option β
  | [] => none
  | p :: t => if p.1 = k then some p.2 else headget k t

/-- The pipeline data object as `StepSrcExtPy.run` sees it: header keywords
(`Option ℚ` values; `none` is NaN), named tables, and the image. -/
structure SEDataObj where
  headers : List (String × Option ℚ)
  tables : List (String × List TableRow)
  image : List ℚ

/-- The in-place modification `run` applies to the data object (lines
293-300): header keywords `RHALF`, `RHALFSTD`, `ELONG`, the two source
tables, then `EXTRACT_THRESH` and `BRIGHT_FACTOR`.  The image is not
touched. -/
def srcextObj (lib : SepLib) (cfg : SrcExtConfig) (obj : SEDataObj) : SEDataObj :=
  { headers :=
      headset "BRIGHT_FACTOR" (some cfg.bfactor)
        (headset "EXTRACT_THRESH" (some cfg.extractthersh)
          (headset "ELONG" (elongMean lib cfg)
            (headset "RHALFSTD" (rhStd lib cfg)
              (headset "RHALF" (rhMean lib cfg) obj.headers)))),
    tables :=
      headset "High Threshold Sources" (highTable lib cfg)
        (headset "Low Threshold Sources" (lowTable lib cfg) obj.tables),
    image := obj.image }

/-- The step's object environment: a heap of data objects and the addresses
of `self.datain` and `self.dataout`. -/
structure SEState where
  heap : ℕ → SEDataObj
  datain : ℕ
  dataout : ℕ

/-- The state effect of `StepSrcExtPy.run`: `self.dataout = self.datain`
(line 293) aliases the output to the input object, and all further header and
table writes mutate that one object in place. -/
def srcextStep (lib : SepLib) (cfg : SrcExtConfig) (s : SEState) : SEState :=
  { heap := Function.update s.heap s.datain (srcextObj lib cfg (s.heap s.datain)),
    datain := s.datain,
    dataout := s.datain }

end SrcExt

namespace Fluxcal

/-- One row of the SExtractor `LDAC_OBJECTS` catalog, with the columns that
`StepFluxCalSex.run` reads. -/
structure SexRow where
  fluxAuto : ℚ
  fluxerrAuto : ℚ
  fluxAper : ℚ
  alpha : ℚ
  delta : ℚ
deriving DecidableEq

/-- One usable row of the Guide Star Catalog query result: sky position and
the filter-specific magnitude and magnitude uncertainty columns. -/
structure GscRow where
  ra : ℚ
  dec : ℚ
  mag : ℚ
  magErr : ℚ
deriving DecidableEq

/-- The external numeric primitives `StepFluxCalSex.run` applies:
`np.log10`, the constant `np.log(10)`, `np.sqrt`, and the astropy on-sky
angular separation in degrees (the `.value` of `d2d`). -/
structure FCPrims where
  log10 : ℚ → ℚ
  ln10 : ℚ
  sqrtq : ℚ → ℚ
  angularSep : ℚ × ℚ → ℚ × ℚ → ℚ

/-- Instrumental magnitude `seo_Mag = -2.5 * log10(FLUX_AUTO)` (line 131). -/
def seoMag (prims : FCPrims) (r : SexRow) : ℚ :=
  -(5 / 2) * prims.log10 r.fluxAuto

/-- Instrumental magnitude error
`seo_MagErr = 2.5 / ln(10) * FLUXERR_AUTO / FLUX_AUTO` (line 132). -/
def seoMagErr (prims : FCPrims) (r : SexRow) : ℚ :=
  5 / 2 / prims.ln10 * r.fluxerrAuto / r.fluxAuto

/-- The star selection `seo_SN` of `run` (lines 134-136): signal-to-noise
above 10, `FLUX_APER - FLUX_AUTO < 250`, signal-to-noise below 1000. -/
def starSelect (r : SexRow) : Bool :=
  decide (r.fluxAuto / r.fluxerrAuto > 10) && decide (r.fluxAper - r.fluxAuto < 250)
    && decide (r.fluxAuto / r.fluxerrAuto < 1000)

/-- The Guide Star Catalog magnitude cut of `run` (lines 161-164): only
entries with `mag < 22` and `mag > 0` are kept. -/
def usableGsc (cat : List GscRow) : List GscRow :=
  cat.filter (fun g => decide (g.mag < 22) && decide (g.mag > 0))

/-- Nearest-neighbour search of `match_to_catalog_sky`: the selected star of
smallest angular separation from the catalog entry (the earliest one on
ties), together with that separation; `none` when there are no stars. -/
def nearestStar (prims : FCPrims) (g : GscRow) : List SexRow → Option (SexRow × ℚ)
  | [] => none
  | s :: t =>
    let d := prims.angularSep (g.ra, g.dec) (s.alpha, s.delta)
    match nearestStar prims g t with
    | none => some (s, d)
    | some sd => if d ≤ sd.2 then some (s, d) else some sd

/-- The external inputs of one `StepFluxCalSex.run`: the SExtractor catalog,
the Guide Star Catalog query result, the `XBIN` header value and the
`zeropercent` parameter. -/
structure FluxcalCtx where
  sexCat : List SexRow
  gscCat : List GscRow
  binning : ℚ
  zeropercent : ℚ

/-- A catalog entry matched to its nearest selected star, with the angular
separation `d2d` in degrees. -/
structure MatchedPair where
  gsc : GscRow
  star : SexRow
  d2d : ℚ
deriving DecidableEq

/-- The cross-match of `run` (lines 166-170): every usable catalog entry is
associated with its nearest selected star. -/
def matchedPairs (prims : FCPrims) (ctx : FluxcalCtx) : List MatchedPair :=
  let stars := ctx.sexCat.filter starSelect
  (usableGsc ctx.gscCat).filterMap fun g =>
    (nearestStar prims g stars).map fun sd => { gsc := g, star := sd.1, d2d := sd.2 }

/-- The distance cut `dist_value = 1*0.76*binning/3600.` of `run` (line 173):
one pixel of the 0.76 arcsec/pixel scale, in degrees. -/
def dist_value (binning : ℚ) : ℚ :=
  1 * 0.76 * binning / 3600

/-- The retained matched pairs: the selection `d2d.value < dist_value`
applied to the fit inputs (lines 177-178). -/
def retainedPairs (prims : FCPrims) (ctx : FluxcalCtx) : List MatchedPair :=
  (matchedPairs prims ctx).filter fun p => decide (p.d2d < dist_value ctx.binning)

/-- The data handed to the optimizer (line 178): per retained pair, the
catalog magnitude, the instrumental magnitude, and the combined uncertainty
`eps_data = sqrt(GSC_MagErr^2 + seo_MagErr^2)` (line 177). -/
def fitData (prims : FCPrims) (ctx : FluxcalCtx) : List (ℚ × ℚ × ℚ) :=
  (retainedPairs prims ctx).map fun p =>
    (p.gsc.mag, seoMag prims p.star,
      prims.sqrtq (p.gsc.magErr ^ 2 + seoMagErr prims p.star ^ 2))

/-- The pipeline data object as `StepFluxCalSex.run` sees it: real-valued
header keywords and the image as a flat array of reals. -/
structure FCDataObj where
  headers : List (String × ℝ)
  image : List ℝ

/-- Stable ascending insertion on reals. -/
noncomputable def insertAscR (v : ℝ) : List ℝ → List ℝ
  | [] => [v]
  | w :: t => if v < w then v :: w :: t else w :: insertAscR v t

/-- Stable ascending sort on reals. -/
noncomputable def sortAscR : List ℝ → List ℝ
  | [] => []
  | v :: t => insertAscR v (sortAscR t)

/-- `np.nanpercentile` with the default linear interpolation: the value at
fractional rank `q/100 * (n-1)` of the sorted data (the model carries no NaN
pixels, so NaN-ignoring is the identity); `0` on an empty image. -/
noncomputable def nanpercentile (xs : List ℝ) (q : ℚ) : ℝ :=
  let s := sortAscR xs
  let n := xs.length
  if n = 0 then 0
  else
    let h : ℚ := q / 100 * (n - 1)
    let k : ℕ := (Int.floor h).toNat
    let frac : ℚ := h - k
    let lo := s.getD k 0
    let hi := s.getD (k + 1) lo
    lo + (frac : ℝ) * (hi - lo)

/-- The in-place modification `run` applies to the data object (lines
181-193): fit the zero point starting from `[1, -2]`, write
`PHOTZP = -b_ml` and `PHOTZPER = 0.0`, then overwrite the image with
`bscale * (image - bzero)` where `bzero` is the `zeropercent` percentile of
the image and `bscale = 3631 * 10 ** (b_ml/2.5)`.  The optimizer
(`scipy.optimize.minimize`) is an external parameter taking the fit data and
the initial guess to the fitted `(m_ml, b_ml)`. -/
noncomputable def fluxcalObj (prims : FCPrims)
    (optim : List (ℚ × ℚ × ℚ) → ℚ × ℚ → ℚ × ℚ) (ctx : FluxcalCtx)
    (obj : FCDataObj) : FCDataObj :=
  let mb := optim (fitData prims ctx) (1, -2)
  let b_ml := mb.2
  let headers2 :=
    SrcExt.headset "PHOTZPER" (0 : ℝ)
      (SrcExt.headset "PHOTZP" (-(b_ml : ℝ)) obj.headers)
  let bzero := nanpercentile obj.image ctx.zeropercent
  let bscale : ℝ := 3631 * (10 : ℝ) ^ ((b_ml : ℝ) / 2.5)
  { headers := headers2, image := obj.image.map fun p => bscale * (p - bzero) }

/-- The step's object environment: a heap of data objects and the addresses
of `self.datain` and `self.dataout`. -/
structure FCState where
  heap : ℕ → FCDataObj
  datain : ℕ
  dataout : ℕ

/-- The state effect of `StepFluxCalSex.run`: `self.dataout = self.datain`
(line 183) aliases the output to the input object, whose headers gain the
zero-point keywords and whose image is overwritten with the rescaled one. -/
noncomputable def fluxcalState (prims : FCPrims)
    (optim : List (ℚ × ℚ × ℚ) → ℚ × ℚ → ℚ × ℚ) (ctx : FluxcalCtx)
    (s : FCState) : FCState :=
  { heap := Function.update s.heap s.datain
      (fluxcalObj prims optim ctx (s.heap s.datain)),
    datain := s.datain,
    dataout := s.datain }

/-- The distinct user-actionable failure the specification demands when fewer
than 2 cross-matched pairs are retained. -/
inductive CalibFailure
  | insufficientMatches
deriving DecidableEq

/-- The run as a fallible computation.  The code of `StepFluxCalSex.run` has
no guard on the number of retained pairs and no failure path: the embedding
always returns `.ok`. -/
noncomputable def fluxcalStep (prims : FCPrims)
    (optim : List (ℚ × ℚ × ℚ) → ℚ × ℚ → ℚ × ℚ) (ctx : FluxcalCtx)
    (s : FCState) : Except CalibFailure FCState :=
  .ok (fluxcalState prims optim ctx s)

/-- Elementwise combination of three lists, truncating at the shortest (the
numpy arrays combined in `residual` all have the retained-pair length). -/
def zip3With (f : α → β → γ → δ) : List α → List β → List γ → List δ
  | a :: as, b :: bs, c :: cs => f a b c :: zip3With f as bs cs
  | _, _, _ => []

/-- The fitting function `residual(params, x, data, errors)` of
stepfluxcalsex.py (lines 200-206): the Gaussian log-likelihood
`-0.5 * sum((data - (m*x + c))^2 / errors^2)`.  In `run` it is called with
`x` the catalog magnitudes and `data` the instrumental magnitudes. -/
noncomputable def residual (m c : ℝ) (x data errors : List ℝ) : ℝ :=
  -0.5 * (zip3With (fun xi di ei => (di - (m * xi + c)) ^ 2 * (1 / ei ^ 2)) x data errors).sum

/-- The objective actually minimized: `nll = lambda *args: -residual(*args)`
(line 176). -/
noncomputable def nll (m c : ℝ) (x data errors : List ℝ) : ℝ :=
  -(residual m c x data errors)

/-- The combined per-point uncertainty `eps_data` (line 177) over the reals:
`sqrt(catalog_err^2 + instrumental_err^2)` elementwise. -/
noncomputable def epsData (gErr sErr : List ℝ) : List ℝ :=
  List.zipWith (fun a b => Real.sqrt (a ^ 2 + b ^ 2)) gErr sErr

/-- Modelled from the spec: the weighted least-squares objective for the
linear model `catalog_mag = m * instrumental_mag + b` of section 4.5, with
weights the inverse combined variance.  This follows the specification's
words and exists only to be compared against the objective the code
minimizes. -/
noncomputable def specFitObjective (m b : ℝ) (catalogMag instrMag errors : List ℝ) : ℝ :=
  (zip3With (fun cm im ei => (cm - (m * im + b)) ^ 2 * (1 / ei ^ 2))
    catalogMag instrMag errors).sum

/-- The weighted least-squares objective for the reversed linear model
`instrumental_mag = m * catalog_mag + b`, with weights the inverse combined
variance written directly in terms of the two error columns. -/
noncomputable def wlsInstrOnCatalog (m b : ℝ) (catalogMag instrMag : List ℝ)
    (gErr sErr : List ℝ) : ℝ :=
  (zip3With (fun cm im es => (im - (m * cm + b)) ^ 2 / (es.1 ^ 2 + es.2 ^ 2))
    catalogMag instrMag (gErr.zip sErr)).sum

end Fluxcal

namespace SrcExt

/-- A concrete circular source (`a = b = 1`) with isophotal flux 10, used by
the concrete instantiations below. -/
def src10 : SepSource :=
  { x := 3, y := 4, a := 1, b := 1, theta := 0,
    xmin := 0, xmax := 0, ymin := 0, ymax := 0, flux := 10 }

/-- A second concrete source with isophotal flux 5. -/
def src5 : SepSource :=
  { src10 with x := 7, flux := 5 }

/-- The step's default configuration: `extractthersh = 2`, `bfactor = 10`,
`deblend = 256`, `kronf = 2.5`. -/
def cfg0 : SrcExtConfig :=
  { extractthersh := 2, bfactor := 10, deblend := 256, kronf := 5 / 2 }

/-- A SEP instantiation whose extraction finds the two concrete sources and
whose elliptical flux equals the isophotal flux with uncertainty 1. -/
def libTwo : SepLib :=
  { extract := fun _ _ => [src5, src10],
    kron_radius := fun _ _ => (1, false),
    sum_ellipse := fun s _ _ => (s.flux, 1, false),
    flux_radius := fun _ _ _ => (1, false),
    npsqrt := fun _ => 0 }

/-- A SEP instantiation whose single extracted source measures a negative
elliptical flux `-5` with uncertainty 1. -/
def libNeg : SepLib :=
  { libTwo with
    extract := fun _ _ => [src10],
    sum_ellipse := fun _ _ _ => (-5, 1, false) }

/-- The measured row `libNeg` produces for `src10`. -/
def rowNeg : MeasuredRow :=
  measureSource libNeg cfg0 src10

/-- A SEP instantiation that extracts nothing at any threshold, as on an
image with no pixels above threshold. -/
def libEmpty : SepLib :=
  { libTwo with extract := fun _ _ => [] }

/-- A SEP instantiation whose extraction result depends on the deblending
sensitivity: it finds `src10` under the library default `deblend_nthresh = 32`
and nothing under any other sensitivity. -/
def libDeblend : SepLib :=
  { libTwo with extract := fun _ d => if d = 32 then [src10] else [] }

/-- A neutral table row for positional access. -/
def trDefault : TableRow :=
  { id := 0, x := 0, y := 0, flux := 0, fluxerr := 0, rh := 0 }

end SrcExt

namespace Fluxcal

/-- A concrete SExtractor row passing the star selection: signal-to-noise
100, `FLUX_APER - FLUX_AUTO = -100`. -/
def star0 : SexRow :=
  { fluxAuto := 100, fluxerrAuto := 1, fluxAper := 0, alpha := 0, delta := 0 }

/-- A concrete usable Guide Star Catalog entry (`0 < mag = 10 < 22`). -/
def gsc0 : GscRow :=
  { ra := 0, dec := 0, mag := 10, magErr := 1 }

/-- Concrete numeric primitives: every angular separation is 0 degrees, so
the single match falls below any positive distance cut. -/
def prims0 : FCPrims :=
  { log10 := fun _ => 0, ln10 := 1, sqrtq := fun _ => 0,
    angularSep := fun _ _ => 0 }

/-- A run context whose catalog query yields exactly one usable entry and
whose SExtractor catalog holds exactly one selected star, at binning 1. -/
def ctx1 : FluxcalCtx :=
  { sexCat := [star0], gscCat := [gsc0], binning := 1, zeropercent := 30 }

/-- The single matched pair `prims0` and `ctx1` produce. -/
def pair0 : MatchedPair :=
  { gsc := gsc0, star := star0, d2d := 0 }

end Fluxcal

namespace SrcExt

theorem mem_insertAsc {key : α → ℚ} {v x : α} :
    ∀ {l : List α}, x ∈ insertAsc key v l ↔ x = v ∨ x ∈ l
  | [] => by simp [insertAsc]
  | w :: t => by
    by_cases h : key v < key w
    · simp [insertAsc, h]
    · simp only [insertAsc, if_neg h, List.mem_cons, mem_insertAsc (l := t)]
      tauto

theorem pairwise_insertAsc {key : α → ℚ} {v : α} :
    ∀ {l : List α}, l.Pairwise (fun p q => key p ≤ key q) →
      (insertAsc key v l).Pairwise (fun p q => key p ≤ key q)
  | [], _ => by simp [insertAsc]
  | w :: t, h => by
    rcases List.pairwise_cons.mp h with ⟨hw, ht⟩
    simp only [insertAsc]
    by_cases hlt : key v < key w
    · rw [if_pos hlt]
      refine List.pairwise_cons.mpr ⟨?_, h⟩
      intro z hz
      rcases List.mem_cons.mp hz with rfl | hz
      · exact le_of_lt hlt
      · exact le_trans (le_of_lt hlt) (hw z hz)
    · rw [if_neg hlt]
      refine List.pairwise_cons.mpr ⟨?_, pairwise_insertAsc ht⟩
      intro z hz
      rcases mem_insertAsc.mp hz with rfl | hz
      · exact le_of_not_lt hlt
      · exact hw z hz

theorem pairwise_sortAscBy {key : α → ℚ} :
    ∀ (l : List α), (sortAscBy key l).Pairwise (fun p q => key p ≤ key q)
  | [] => by simp [sortAscBy]
  | v :: t => pairwise_insertAsc (pairwise_sortAscBy t)

theorem pairwise_npSortDescBy {key : α → ℚ} (l : List α) :
    (npSortDescBy key l).Pairwise (fun p q => key q ≤ key p) := by
  unfold npSortDescBy
  exact List.pairwise_reverse.mpr (pairwise_sortAscBy l)

theorem pairwise_filter_keep {R : α → α → Prop} {l : List α} (p : α → Bool)
    (h : l.Pairwise R) : (l.filter p).Pairwise R :=
  List.Pairwise.sublist (List.filter_sublist l) h

theorem mkTableAux_map_flux : ∀ (n : ℕ) (rows : List MeasuredRow),
    (mkTableAux n rows).map TableRow.flux = rows.map MeasuredRow.flux_elip
  | _, [] => rfl
  | n, r :: t => by
    simp [mkTableAux, mkTableAux_map_flux (n + 1) t]

theorem pairwise_mkTable_flux {rows : List MeasuredRow}
    (h : rows.Pairwise (fun p q => q.flux_elip ≤ p.flux_elip)) :
    (mkTable rows).Pairwise (fun p q => q.flux ≤ p.flux) := by
  have hmap : ((mkTable rows).map TableRow.flux).Pairwise (fun p q => q ≤ p) := by
    rw [mkTable, mkTableAux_map_flux]
    exact List.pairwise_map.mpr h
  exact List.pairwise_map.mp hmap

theorem pairwise_getD {R : α → α → Prop} {l : List α} (h : l.Pairwise R)
    (i : ℕ) (d : α) (hi : i + 1 < l.length) :
    R (l.getD i d) (l.getD (i + 1) d) := by
  have hi2 : i < l.length := Nat.lt_of_succ_lt hi
  rw [List.getD_eq_getElem l d hi2, List.getD_eq_getElem l d hi]
  exact List.pairwise_iff_getElem.mp h i (i + 1) hi2 hi (Nat.lt_succ_self i)

theorem lowPath_pairwise (lib : SepLib) (cfg : SrcExtConfig) :
    (lowPath lib cfg).Pairwise (fun p q => q.flux_elip ≤ p.flux_elip) := by
  unfold lowPath
  exact pairwise_filter_keep _ (pairwise_npSortDescBy _)

theorem highPath_pairwise (lib : SepLib) (cfg : SrcExtConfig) :
    (highPath lib cfg).Pairwise (fun p q => q.flux_elip ≤ p.flux_elip) := by
  unfold highPath
  exact pairwise_filter_keep _ (pairwise_npSortDescBy _)

end SrcExt

namespace Fluxcal

theorem zip3With_sum_nonneg {α β γ : Type} (f : α → β → γ → ℝ)
    (hf : ∀ a b c, 0 ≤ f a b c) :
    ∀ (as : List α) (bs : List β) (cs : List γ), 0 ≤ (zip3With f as bs cs).sum := by
  intro as
  induction as with
  | nil => intro bs cs; simp [zip3With]
  | cons a as ih =>
    intro bs cs
    cases bs with
    | nil => simp [zip3With]
    | cons b bs =>
      cases cs with
      | nil => simp [zip3With]
      | cons c cs =>
        simp only [zip3With, List.sum_cons]
        exact add_nonneg (hf a b c) (ih bs cs)

theorem nll_nonneg (m c : ℝ) (x data errors : List ℝ) :
    0 ≤ nll m c x data errors := by
  unfold nll residual
  have h := zip3With_sum_nonneg (fun xi di ei => (di - (m * xi + c)) ^ 2 * (1 / ei ^ 2))
    (fun xi di ei => mul_nonneg (sq_nonneg _) (one_div_nonneg.mpr (sq_nonneg _)))
    x data errors
  linarith

theorem specFitObjective_nonneg (m b : ℝ) (catalogMag instrMag errors : List ℝ) :
    0 ≤ specFitObjective m b catalogMag instrMag errors := by
  unfold specFitObjective
  exact zip3With_sum_nonneg _
    (fun cm im ei => mul_nonneg (sq_nonneg _) (one_div_nonneg.mpr (sq_nonneg _)))
    catalogMag instrMag errors

theorem zip3With_epsData_sum (m b : ℝ) :
    ∀ (x d g s : List ℝ),
      (zip3With (fun xi di ei => (di - (m * xi + b)) ^ 2 * (1 / ei ^ 2)) x d (epsData g s)).sum =
        (zip3With (fun cm im es => (im - (m * cm + b)) ^ 2 / (es.1 ^ 2 + es.2 ^ 2))
          x d (g.zip s)).sum := by
  intro x
  induction x with
  | nil => intro d g s; simp [zip3With]
  | cons xi x ih =>
    intro d g s
    cases d with
    | nil => simp [zip3With]
    | cons di d =>
      cases g with
      | nil => simp [zip3With, epsData]
      | cons gi g =>
        cases s with
        | nil => simp [zip3With, epsData]
        | cons si s =>
          simp only [epsData, List.zipWith_cons_cons, List.zip_cons_cons, zip3With,
            List.sum_cons]
          have hsq : Real.sqrt (gi ^ 2 + si ^ 2) ^ 2 = gi ^ 2 + si ^ 2 :=
            Real.sq_sqrt (by positivity)
          have ih2 := ih d g s
          simp only [epsData] at ih2
          rw [hsq, ih2, div_eq_mul_one_div ((di - (m * xi + b)) ^ 2) (gi ^ 2 + si ^ 2)]
          rfl

theorem nll_eq_half_wls (m b : ℝ) (x d g s : List ℝ) :
    nll m b x d (epsData g s) = 1 / 2 * wlsInstrOnCatalog m b x d g s := by
  unfold nll residual wlsInstrOnCatalog
  rw [zip3With_epsData_sum m b x d g s]
  ring

end Fluxcal

/-- Claim C4 (counterexample).  The objective the code minimizes (`nll`, with
catalog magnitudes as abscissa `x` and instrumental magnitudes as ordinate
`data`) is not the weighted least-squares objective of the claim's model
`catalog_mag = m * instrumental_mag + b`: on the two-point data set
catalog = [0, 2], instrumental = [1, 2] with unit combined uncertainties, the
code's objective vanishes (attains its minimum) at `(m, b) = (1/2, 1)` where
the claim's objective does not, and the claim's objective vanishes at
`(m, b) = (2, -2)` where the code's does not; in particular the two
objectives differ at `(1/2, 1)`. -/
theorem C4_counterexample :
    Fluxcal.nll (1/2) 1 [0, 2] [1, 2] (Fluxcal.epsData [1, 1] [0, 0]) = 0 ∧
    Fluxcal.nll 2 (-2) [0, 2] [1, 2] (Fluxcal.epsData [1, 1] [0, 0]) ≠ 0 ∧
    Fluxcal.specFitObjective 2 (-2) [0, 2] [1, 2] (Fluxcal.epsData [1, 1] [0, 0]) = 0 ∧
    Fluxcal.specFitObjective (1/2) 1 [0, 2] [1, 2] (Fluxcal.epsData [1, 1] [0, 0]) ≠ 0 ∧
    Fluxcal.nll (1/2) 1 [0, 2] [1, 2] (Fluxcal.epsData [1, 1] [0, 0]) ≠
      1 / 2 * Fluxcal.specFitObjective (1/2) 1 [0, 2] [1, 2]
        (Fluxcal.epsData [1, 1] [0, 0]) := by
  norm_num [Fluxcal.nll, Fluxcal.residual, Fluxcal.specFitObjective, Fluxcal.epsData,
    Fluxcal.zip3With, Real.sqrt_one]

/-- Claim C4 (amended).  The zero-point fitter minimizes, from the initial
guess `(m, b) = (1, -2)`, the weighted least-squares objective of the
reversed linear model `instrumental_mag = m * catalog_mag + b` — the
likelihood `nll` with combined uncertainty `eps_data` equals half the
weighted sum of squared residuals of that model with weights the inverse
combined variance — and the photometric zero point written to the output
header is `-b̂` for the intercept `b̂` the optimizer returns. -/
theorem C4_amended_fit_model :
    (∀ (m b : ℝ) (x d g s : List ℝ),
      Fluxcal.nll m b x d (Fluxcal.epsData g s) =
        1 / 2 * Fluxcal.wlsInstrOnCatalog m b x d g s) ∧
    (∀ (prims : Fluxcal.FCPrims) (optim : List (ℚ × ℚ × ℚ) → ℚ × ℚ → ℚ × ℚ)
      (ctx : Fluxcal.FluxcalCtx) (obj : Fluxcal.FCDataObj),
      SrcExt.headget "PHOTZP" ((Fluxcal.fluxcalObj prims optim ctx obj).headers) =
        some (-(((optim (Fluxcal.fitData prims ctx) (1, -2)).2 : ℚ) : ℝ))) := by
  constructor
  · exact Fluxcal.nll_eq_half_wls
  · intro prims optim ctx obj
    simp [Fluxcal.fluxcalObj, SrcExt.headset, SrcExt.headget]

/-- Claim C5.  For every run, the output image equals
`bscale * (image - bzero)` applied elementwise, where `bzero` is the
`zeropercent` percentile of the image and `bscale = 3631 * 10 ^ (b̂ / 2.5)`
for the fitted intercept `b̂`: a deterministic closed-form (single
elementwise map, not iterative) transformation. -/
theorem C5_rescale_closed_form :
    ∀ (prims : Fluxcal.FCPrims) (optim : List (ℚ × ℚ × ℚ) → ℚ × ℚ → ℚ × ℚ)
      (ctx : Fluxcal.FluxcalCtx) (obj : Fluxcal.FCDataObj),
      (Fluxcal.fluxcalObj prims optim ctx obj).image =
        obj.image.map (fun p =>
          3631 * (10 : ℝ) ^ ((((optim (Fluxcal.fitData prims ctx) (1, -2)).2 : ℚ) : ℝ) / 2.5) *
            (p - Fluxcal.nanpercentile obj.image ctx.zeropercent)) :=
  fun _ _ _ _ => rfl

/-- Claim C10.  Both steps return the input data object itself: the
`dataout` address equals the `datain` address, the object at that address is
the input object updated in place with the new header keywords (and, for the
extraction step, the two source tables), the extraction step leaves the image
untouched, and the flux-calibration step overwrites the image with an
elementwise rescale of the input image. -/
theorem C10_output_aliases_input :
    (∀ (lib : SrcExt.SepLib) (cfg : SrcExt.SrcExtConfig) (s : SrcExt.SEState),
      (SrcExt.srcextStep lib cfg s).dataout = s.datain ∧
      (SrcExt.srcextStep lib cfg s).heap s.datain =
        SrcExt.srcextObj lib cfg (s.heap s.datain) ∧
      (SrcExt.srcextObj lib cfg (s.heap s.datain)).image = (s.heap s.datain).image) ∧
    (∀ (prims : Fluxcal.FCPrims) (optim : List (ℚ × ℚ × ℚ) → ℚ × ℚ → ℚ × ℚ)
      (ctx : Fluxcal.FluxcalCtx) (s : Fluxcal.FCState),
      (Fluxcal.fluxcalState prims optim ctx s).dataout = s.datain ∧
      (Fluxcal.fluxcalState prims optim ctx s).heap s.datain =
        Fluxcal.fluxcalObj prims optim ctx (s.heap s.datain) ∧
      ∃ g : ℝ → ℝ, (Fluxcal.fluxcalObj prims optim ctx (s.heap s.datain)).image =
        (s.heap s.datain).image.map g) := by
  constructor
  · intro lib cfg s
    exact ⟨rfl, Function.update_same _ _ _, rfl⟩
  · intro prims optim ctx s
    exact ⟨rfl, Function.update_same _ _ _, ⟨_, rfl⟩⟩

/-- Claim C9 (counterexample).  The high-threshold path is not the
low-threshold path applied with only the extraction threshold changed: with
the step's default configuration (`deblend = 256`) and a SEP instantiation
whose extraction depends on the deblending sensitivity, the high-threshold
table differs from the shared pipeline evaluated at the bumped threshold
with the configured deblending sensitivity, because the high-threshold
extraction call omits `deblend_nthresh` and therefore uses the library
default 32. -/
theorem C9_counterexample :
    SrcExt.highTable SrcExt.libDeblend SrcExt.cfg0 ≠
      SrcExt.mkTable (SrcExt.pathAt SrcExt.libDeblend SrcExt.cfg0
        (SrcExt.cfg0.extractthersh * SrcExt.cfg0.bfactor) SrcExt.cfg0.deblend) := by
  norm_num [SrcExt.highTable, SrcExt.highPath, SrcExt.pathAt, SrcExt.libDeblend,
    SrcExt.libTwo, SrcExt.cfg0, SrcExt.npSortDescBy, SrcExt.sortAscBy, SrcExt.insertAsc,
    SrcExt.measureSource, SrcExt.starCut, SrcExt.elim, SrcExt.src10, SrcExt.mkTable,
    SrcExt.mkTableAux]

/-- Claim C9 (amended).  The two processing paths are one parametrized
pipeline applied at two argument pairs: the low path is the shared pipeline
at `(extractthersh, deblend)` and the high path is the shared pipeline at
`(extractthersh * bfactor, 32)` — identical logic, differing in the
extraction threshold and, additionally, in the deblending sensitivity, which
the high-threshold extraction call leaves at the library default 32. -/
theorem C9_amended_paths_shared :
    ∀ (lib : SrcExt.SepLib) (cfg : SrcExt.SrcExtConfig),
      SrcExt.lowPath lib cfg = SrcExt.pathAt lib cfg cfg.extractthersh cfg.deblend ∧
      SrcExt.highPath lib cfg = SrcExt.pathAt lib cfg (cfg.extractthersh * cfg.bfactor) 32 ∧
      SrcExt.lowTable lib cfg =
        SrcExt.mkTable (SrcExt.pathAt lib cfg cfg.extractthersh cfg.deblend) ∧
      SrcExt.highTable lib cfg =
        SrcExt.mkTable (SrcExt.pathAt lib cfg (cfg.extractthersh * cfg.bfactor) 32) :=
  fun _ _ => ⟨rfl, rfl, rfl, rfl⟩

theorem retainedPairs_prims0_ctx1 :
    Fluxcal.retainedPairs Fluxcal.prims0 Fluxcal.ctx1 = [Fluxcal.pair0] := by
  norm_num [Fluxcal.retainedPairs, Fluxcal.matchedPairs, Fluxcal.usableGsc,
    Fluxcal.starSelect, Fluxcal.nearestStar, Fluxcal.dist_value, Fluxcal.prims0,
    Fluxcal.ctx1, Fluxcal.star0, Fluxcal.gsc0, Fluxcal.pair0, List.filterMap_cons,
    List.filter_cons]

/-- Claim C1 (code evaluation).  On a run whose catalog query yields exactly
one usable entry (hence exactly one retained cross-matched pair), the
embedded `StepFluxCalSex.run` does not report the insufficient-calibration-
matches failure: it returns `.ok` for every optimizer and primitive set, and
it writes the `PHOTZP` keyword computed from the fit it attempted.  The code
has no guard at all on the number of retained pairs. -/
theorem C1_single_entry_still_fits :
    (Fluxcal.usableGsc Fluxcal.ctx1.gscCat).length = 1 ∧
    (Fluxcal.retainedPairs Fluxcal.prims0 Fluxcal.ctx1).length = 1 ∧
    (∀ (prims : Fluxcal.FCPrims) (optim : List (ℚ × ℚ × ℚ) → ℚ × ℚ → ℚ × ℚ)
        (s : Fluxcal.FCState),
      (Fluxcal.fluxcalStep prims optim Fluxcal.ctx1 s).isOk = true) ∧
    (∀ (prims : Fluxcal.FCPrims) (optim : List (ℚ × ℚ × ℚ) → ℚ × ℚ → ℚ × ℚ)
        (obj : Fluxcal.FCDataObj),
      SrcExt.headget "PHOTZP" ((Fluxcal.fluxcalObj prims optim Fluxcal.ctx1 obj).headers) =
        some (-(((optim (Fluxcal.fitData prims Fluxcal.ctx1) (1, -2)).2 : ℚ) : ℝ))) := by
  refine ⟨by decide, ?_, fun _ _ _ => rfl, ?_⟩
  · rw [retainedPairs_prims0_ctx1]
    rfl
  · intro prims optim obj
    simp [Fluxcal.fluxcalObj, SrcExt.headset, SrcExt.headget]

theorem lowPath_libTwo :
    SrcExt.lowPath SrcExt.libTwo SrcExt.cfg0 =
      [SrcExt.measureSource SrcExt.libTwo SrcExt.cfg0 SrcExt.src10,
       SrcExt.measureSource SrcExt.libTwo SrcExt.cfg0 SrcExt.src5] := by
  norm_num [SrcExt.lowPath, SrcExt.libTwo, SrcExt.cfg0, SrcExt.npSortDescBy,
    SrcExt.sortAscBy, SrcExt.insertAsc, SrcExt.measureSource, SrcExt.starCut,
    SrcExt.elim, SrcExt.src10, SrcExt.src5, List.filter_cons]

/-- Claim C7.  Every matched pair used for the zero-point fit has angular
separation strictly below one pixel in angular units,
`0.76 * binning / 3600` degrees; no pair at or above that threshold is
retained. -/
theorem C7_retained_below_one_pixel :
    ∀ (prims : Fluxcal.FCPrims) (ctx : Fluxcal.FluxcalCtx) (p : Fluxcal.MatchedPair),
      p ∈ Fluxcal.retainedPairs prims ctx → p.d2d < 0.76 * ctx.binning / 3600 := by
  intro prims ctx p hp
  have h2 : decide (p.d2d < Fluxcal.dist_value ctx.binning) = true :=
    (List.mem_filter.mp hp).2
  have h3 := of_decide_eq_true h2
  simpa [Fluxcal.dist_value, one_mul] using h3

/-- Claim C7 (witness): the concrete retained pair of the one-entry context
is strictly below the one-pixel threshold. -/
theorem C7_witness :
    Fluxcal.pair0 ∈ Fluxcal.retainedPairs Fluxcal.prims0 Fluxcal.ctx1 ∧
    Fluxcal.pair0.d2d < 0.76 * Fluxcal.ctx1.binning / 3600 :=
  ⟨by simp [retainedPairs_prims0_ctx1],
   C7_retained_below_one_pixel Fluxcal.prims0 Fluxcal.ctx1 Fluxcal.pair0
     (by simp [retainedPairs_prims0_ctx1])⟩

/-- Claim C2 (counterexample).  A source measuring a negative elliptical flux
(`flux = -5`, `fluxerr = 1`) passes the code's acceptance filter and is the
sole entry of the low-threshold result set, yet its signal-to-noise ratio is
not positive: the claimed condition `0 < flux/flux_err` does not hold for
every accepted source. -/
theorem C2_counterexample :
    SrcExt.lowPath SrcExt.libNeg SrcExt.cfg0 = [SrcExt.rowNeg] ∧
    ¬ (0 < SrcExt.rowNeg.flux_elip / SrcExt.rowNeg.fluxerr_elip) := by
  constructor
  · norm_num [SrcExt.lowPath, SrcExt.libNeg, SrcExt.libTwo, SrcExt.cfg0,
      SrcExt.npSortDescBy, SrcExt.sortAscBy, SrcExt.insertAsc, SrcExt.measureSource,
      SrcExt.starCut, SrcExt.elim, SrcExt.src10, SrcExt.rowNeg, List.filter_cons]
  · norm_num [SrcExt.rowNeg, SrcExt.measureSource, SrcExt.libNeg, SrcExt.libTwo,
      SrcExt.cfg0, SrcExt.src10]

/-- Claim C2 (amended).  Every source accepted into a result set (low- or
high-threshold) satisfies elongation `a/b < 1.5`, `flux/flux_err < 1000`,
`flux_err ≠ 0` and `flux ≠ 0`; any source failing one of these is excluded.
(The code does not require the signal-to-noise ratio `flux/flux_err` to be
positive.) -/
theorem C2_amended_filter_conditions :
    ∀ (lib : SrcExt.SepLib) (cfg : SrcExt.SrcExtConfig) (r : SrcExt.MeasuredRow),
      (r ∈ SrcExt.lowPath lib cfg ∨ r ∈ SrcExt.highPath lib cfg) →
      r.src.a / r.src.b < 3 / 2 ∧ r.flux_elip / r.fluxerr_elip < 1000 ∧
        r.fluxerr_elip ≠ 0 ∧ r.flux_elip ≠ 0 := by
  intro lib cfg r hmem
  have hcut : SrcExt.starCut r = true := by
    rcases hmem with hm | hm
    · exact (List.mem_filter.mp hm).2
    · exact (List.mem_filter.mp hm).2
  simp only [SrcExt.starCut, SrcExt.elim, Bool.and_eq_true, decide_eq_true_eq] at hcut
  exact ⟨hcut.1.1.1, hcut.1.1.2, hcut.1.2, hcut.2⟩

/-- Claim C2 (witness): the concrete accepted source of the two-source run
satisfies the four filter conditions. -/
theorem C2_witness :
    (SrcExt.measureSource SrcExt.libTwo SrcExt.cfg0 SrcExt.src10 ∈
        SrcExt.lowPath SrcExt.libTwo SrcExt.cfg0 ∨
      SrcExt.measureSource SrcExt.libTwo SrcExt.cfg0 SrcExt.src10 ∈
        SrcExt.highPath SrcExt.libTwo SrcExt.cfg0) ∧
    ((SrcExt.measureSource SrcExt.libTwo SrcExt.cfg0 SrcExt.src10).src.a /
        (SrcExt.measureSource SrcExt.libTwo SrcExt.cfg0 SrcExt.src10).src.b < 3 / 2 ∧
      (SrcExt.measureSource SrcExt.libTwo SrcExt.cfg0 SrcExt.src10).flux_elip /
        (SrcExt.measureSource SrcExt.libTwo SrcExt.cfg0 SrcExt.src10).fluxerr_elip < 1000 ∧
      (SrcExt.measureSource SrcExt.libTwo SrcExt.cfg0 SrcExt.src10).fluxerr_elip ≠ 0 ∧
      (SrcExt.measureSource SrcExt.libTwo SrcExt.cfg0 SrcExt.src10).flux_elip ≠ 0) :=
  ⟨Or.inl (by rw [lowPath_libTwo]; exact List.mem_cons_self _ _),
   C2_amended_filter_conditions SrcExt.libTwo SrcExt.cfg0 _
     (Or.inl (by rw [lowPath_libTwo]; exact List.mem_cons_self _ _))⟩

/-- Claim C3.  Each result table is ordered by elliptical flux descending:
for any two consecutive entries `i`, `i+1`, `flux[i+1] ≤ flux[i]`.  The
embedded sort is a deterministic (stable ascending, then reversed) function
of the input, so re-running on identical input yields the identical table. -/
theorem C3_tables_sorted_descending :
    ∀ (lib : SrcExt.SepLib) (cfg : SrcExt.SrcExtConfig) (i : ℕ) (d : SrcExt.TableRow),
      (i + 1 < (SrcExt.lowTable lib cfg).length →
        ((SrcExt.lowTable lib cfg).getD (i + 1) d).flux ≤
          ((SrcExt.lowTable lib cfg).getD i d).flux) ∧
      (i + 1 < (SrcExt.highTable lib cfg).length →
        ((SrcExt.highTable lib cfg).getD (i + 1) d).flux ≤
          ((SrcExt.highTable lib cfg).getD i d).flux) := by
  intro lib cfg i d
  constructor
  · intro hi
    exact SrcExt.pairwise_getD
      (SrcExt.pairwise_mkTable_flux (SrcExt.lowPath_pairwise lib cfg)) i d hi
  · intro hi
    exact SrcExt.pairwise_getD
      (SrcExt.pairwise_mkTable_flux (SrcExt.highPath_pairwise lib cfg)) i d hi

/-- Claim C3 (witness): on the two-source run the low-threshold table has two
entries and they are in descending flux order. -/
theorem C3_witness :
    0 + 1 < (SrcExt.lowTable SrcExt.libTwo SrcExt.cfg0).length ∧
    ((SrcExt.lowTable SrcExt.libTwo SrcExt.cfg0).getD (0 + 1) SrcExt.trDefault).flux ≤
      ((SrcExt.lowTable SrcExt.libTwo SrcExt.cfg0).getD 0 SrcExt.trDefault).flux :=
  ⟨by simp [SrcExt.lowTable, lowPath_libTwo, SrcExt.mkTable, SrcExt.mkTableAux],
   (C3_tables_sorted_descending SrcExt.libTwo SrcExt.cfg0 0 SrcExt.trDefault).1
     (by simp [SrcExt.lowTable, lowPath_libTwo, SrcExt.mkTable, SrcExt.mkTableAux])⟩

/-- Claim C6.  Whenever both extraction calls return empty source sets (as
the external contract specifies for an image with no pixels above
threshold), the step completes: both result tables are empty and the three
summary statistics are NaN (`none`). -/
theorem C6_empty_extraction :
    ∀ (lib : SrcExt.SepLib) (cfg : SrcExt.SrcExtConfig),
      lib.extract cfg.extractthersh cfg.deblend = [] →
      lib.extract (cfg.extractthersh * cfg.bfactor) 32 = [] →
      SrcExt.lowTable lib cfg = [] ∧ SrcExt.highTable lib cfg = [] ∧
      SrcExt.rhMean lib cfg = none ∧ SrcExt.rhStd lib cfg = none ∧
      SrcExt.elongMean lib cfg = none := by
  intro lib cfg h1 h2
  have hlow : SrcExt.lowPath lib cfg = [] := by
    simp [SrcExt.lowPath, h1, SrcExt.npSortDescBy, SrcExt.sortAscBy]
  have hhigh : SrcExt.highPath lib cfg = [] := by
    simp [SrcExt.highPath, h2, SrcExt.npSortDescBy, SrcExt.sortAscBy]
  refine ⟨?_, ?_, ?_, ?_, ?_⟩ <;>
    simp [SrcExt.lowTable, SrcExt.highTable, hlow, hhigh, SrcExt.mkTable,
      SrcExt.mkTableAux, SrcExt.rhMean, SrcExt.rhStd, SrcExt.elongMean,
      SrcExt.nanmean, SrcExt.mad_std]

/-- Claim C6 (witness): the empty-extraction instantiation yields empty
tables and NaN statistics. -/
theorem C6_witness :
    SrcExt.libEmpty.extract SrcExt.cfg0.extractthersh SrcExt.cfg0.deblend = [] ∧
    SrcExt.libEmpty.extract (SrcExt.cfg0.extractthersh * SrcExt.cfg0.bfactor) 32 = [] ∧
    (SrcExt.lowTable SrcExt.libEmpty SrcExt.cfg0 = [] ∧
      SrcExt.highTable SrcExt.libEmpty SrcExt.cfg0 = [] ∧
      SrcExt.rhMean SrcExt.libEmpty SrcExt.cfg0 = none ∧
      SrcExt.rhStd SrcExt.libEmpty SrcExt.cfg0 = none ∧
      SrcExt.elongMean SrcExt.libEmpty SrcExt.cfg0 = none) :=
  ⟨rfl, rfl, C6_empty_extraction SrcExt.libEmpty SrcExt.cfg0 rfl rfl⟩
